import Mathlib

/-!
Verification of the data-preparation and filtering pipeline of the F1
insight dashboard (source: hello.py) against its specification.

The pipeline is shallowly embedded: tables are lists of records, pandas
dataframe operations become list operations.

Modelling conventions, applied uniformly:
* A column that the program feeds through pd.to_numeric is modelled as a
  raw `Cell`: the literal text of the cell together with the numeric value
  that to_numeric extracts from it (`none` when the text is unparsable or
  the cell is null).  Equality of cells is equality of the raw content,
  which is what pandas drop_duplicates compares on an uncoerced column.
* A column the program uses without any numeric coercion (the join keys
  raceId / driverId / circuitId, round, and the string keys driverRef /
  circuitName) is modelled at the type the data model of the spec gives it.
* A float column that may hold NaN is modelled as `Option Rat` with `none`
  for NaN; pandas aggregates (sum / mean / min) skip `none`.
* pandas merge with unique right keys preserves left row order and keeps
  exactly the left rows with a match, hence it is modelled by `List.filter`
  on key membership; a general inner merge is modelled by `List.flatMap`
  over the matching right rows, which reproduces the pandas row order.
* pandas sort_values and the sorted key enumeration of groupby(sort=True)
  are modelled by `List.mergeSort`.  sort_values defaults to
  kind="quicksort", which pandas does not document as stable, so the
  theorems rely only on the permutation and sortedness of the result —
  guaranteed by every kind — and never on the model sort's tie order.
* Column-wise astype(int), which raises when the column holds a NaN
  produced by a failed coercion, is modelled row-wise in the `Except`
  monad: the first unparsable cell yields the error, any other outcome is
  identical to the column-wise cast.
-/

namespace F1

/-- A raw table cell: the literal text together with the numeric value that
pd.to_numeric extracts from it (`none` when unparsable or null). -/
structure Cell where
  text : String
  v : Option Rat
deriving DecidableEq

/-- Truncation toward zero, the conversion numpy astype(int) applies to a
finite float. -/
def truncToInt (q : Rat) : Int := if 0 ≤ q then q.floor else q.ceil

/-- Raw races table row (year is fed to pd.to_numeric, so it is a raw cell). -/
structure RaceRaw where
  raceId : Int
  year : Cell
  round : Int
  circuitId : Int
deriving DecidableEq

/-- Races row after load_tables has cast year to int. -/
structure Race where
  raceId : Int
  year : Int
  round : Int
  circuitId : Int
deriving DecidableEq

/-- Raw lap_times table row; lap and milliseconds are later coerced. -/
structure LapTimeRaw where
  raceId : Int
  driverId : Int
  lap : Cell
  milliseconds : Cell
deriving DecidableEq

/-- Drivers table row. -/
structure Driver where
  driverId : Int
  driverRef : String
deriving DecidableEq

/-- Raw circuits table row, before the rename of name to circuitName. -/
structure CircuitRaw where
  circuitId : Int
  name : String
  lat : Cell
  lng : Cell
deriving DecidableEq

/-- Circuits row after load_tables renamed name to circuitName. -/
structure Circuit where
  circuitId : Int
  circuitName : String
  lat : Cell
  lng : Cell
deriving DecidableEq

/-- Raw results table row; points is later coerced. -/
structure ResultRaw where
  raceId : Int
  driverId : Int
  points : Cell
deriving DecidableEq

/-- Raw pit_stops table row; stop and milliseconds are later coerced. -/
structure PitStopRaw where
  raceId : Int
  driverId : Int
  stop : Cell
  milliseconds : Cell
deriving DecidableEq

/-- The six tables as delivered by the external data source. -/
structure RawTables where
  races : List RaceRaw
  lap_times : List LapTimeRaw
  results : List ResultRaw
  drivers : List Driver
  circuits : List CircuitRaw
  pit_stops : List PitStopRaw
deriving DecidableEq

/-- The tables after load_tables normalised them. -/
structure Tables where
  races : List Race
  lap_times : List LapTimeRaw
  results : List ResultRaw
  drivers : List Driver
  circuits : List Circuit
  pit_stops : List PitStopRaw
deriving DecidableEq

/-- Embedding of load_tables (hello.py lines 13-20): casts races.year with
pd.to_numeric(errors="coerce").astype(int) and renames the circuits name
column to circuitName.  The astype(int) step raises IntCastingNaNError as
soon as any year cell fails the coercion, which the Except monad records. -/
def load_tables (t : RawTables) : Except String Tables := do
  let races ← t.races.mapM fun r =>
    match r.year.v with
    | some q => Except.ok
        { raceId := r.raceId, year := truncToInt q,
          round := r.round, circuitId := r.circuitId }
    | none => Except.error
        "IntCastingNaNError: cannot convert non-finite values (NA or inf) to integer"
  Except.ok
    { races := races
      lap_times := t.lap_times
      results := t.results
      drivers := t.drivers
      circuits := t.circuits.map fun c =>
        { circuitId := c.circuitId, circuitName := c.name,
          lat := c.lat, lng := c.lng }
      pit_stops := t.pit_stops }

/-- A row of the MasterView (lap_times joined to drivers, races, circuits,
with lap cast to int, milliseconds coerced, lap_sec derived). -/
structure MRow where
  raceId : Int
  driverId : Int
  driverRef : String
  year : Int
  round : Int
  circuitId : Int
  circuitName : String
  lat : Cell
  lng : Cell
  lap : Int
  milliseconds : Option Rat
  lap_sec : Option Rat
deriving DecidableEq

/-- Embedding of make_master (hello.py lines 24-37): the three inner merges
followed by the numeric casts.  The astype(int) on lap raises when some lap
cell is unparsable; milliseconds stays NaN (`none`) on failure and
lap_sec = milliseconds / 1000. -/
def make_master (t : Tables) : Except String (List MRow) := do
  let j1 := t.lap_times.flatMap fun lt =>
    (t.drivers.filter fun d => d.driverId == lt.driverId).map fun d => (lt, d)
  let j2 := j1.flatMap fun x =>
    (t.races.filter fun rc => rc.raceId == x.1.raceId).map fun rc => (x, rc)
  let j3 := j2.flatMap fun x =>
    (t.circuits.filter fun c => c.circuitId == x.2.circuitId).map fun c => (x, c)
  j3.mapM fun x =>
    match x.1.1.1.lap.v with
    | some q => Except.ok
        { raceId := x.1.1.1.raceId, driverId := x.1.1.1.driverId,
          driverRef := x.1.1.2.driverRef,
          year := x.1.2.year, round := x.1.2.round,
          circuitId := x.2.circuitId, circuitName := x.2.circuitName,
          lat := x.2.lat, lng := x.2.lng,
          lap := truncToInt q,
          milliseconds := x.1.1.1.milliseconds.v,
          lap_sec := x.1.1.1.milliseconds.v.map fun m => m / 1000 }
    | none => Except.error
        "IntCastingNaNError: cannot convert non-finite values (NA or inf) to integer"

/-- A row of the ResultsView (results joined to drivers and races, with
points coerced to a nullable real). -/
structure RRow where
  raceId : Int
  driverId : Int
  driverRef : String
  year : Int
  round : Int
  points : Option Rat
deriving DecidableEq

/-- Embedding of make_results (hello.py lines 41-50): two inner merges, then
points is coerced with pd.to_numeric(errors="coerce"), never raising. -/
def make_results (t : Tables) : List RRow :=
  let j1 := t.results.flatMap fun rs =>
    (t.drivers.filter fun d => d.driverId == rs.driverId).map fun d => (rs, d)
  let j2 := j1.flatMap fun x =>
    (t.races.filter fun rc => rc.raceId == x.1.raceId).map fun rc => (x, rc)
  j2.map fun x =>
    { raceId := x.1.1.raceId, driverId := x.1.1.driverId,
      driverRef := x.1.2.driverRef,
      year := x.2.year, round := x.2.round,
      points := x.1.1.points.v }

/-- Embedding of the selection filter (hello.py line 69):
MASTER[(MASTER.year == year) & (MASTER.driverRef == driver)]. -/
def df (master : List MRow) (year : Int) (driver : String) : List MRow :=
  master.filter fun r => r.year == year && r.driverRef == driver

/-- Deduplication keeping the first occurrence, the behaviour of pandas
unique() and drop_duplicates(); seen accumulates the values already kept. -/
def dedupFirstAux [DecidableEq α] (seen : List α) : List α → List α
  | [] => []
  | a :: l =>
    if a ∈ seen then dedupFirstAux seen l
    else a :: dedupFirstAux (a :: seen) l

/-- Deduplication keeping the first occurrence in order. -/
def dedupFirst [DecidableEq α] (l : List α) : List α := dedupFirstAux [] l

/-- Embedding of the season selector options (hello.py line 61): the
distinct years of MasterView, sorted descending. -/
def years (master : List MRow) : List Int :=
  (dedupFirst (master.map fun r => r.year)).mergeSort fun a b => decide (b ≤ a)

/-- Embedding of the driver selector options (hello.py line 65): the
distinct driverRef values of the rows of the selected year, sorted
ascending. -/
def drivers (master : List MRow) (year : Int) : List String :=
  (dedupFirst ((master.filter fun r => r.year == year).map
    fun r => r.driverRef)).mergeSort fun a b => decide (a ≤ b)

/-- Null-skipping minimum of a float series, the semantics of
pandas Series.min: NaN entries are dropped before this is applied, and the
result is NaN (`none`) when no valid value remains. -/
def seriesMin : List Rat → Option Rat
  | [] => none
  | x :: xs =>
    match seriesMin xs with
    | none => some x
    | some m => some (min x m)

/-- Null-skipping mean of a float series, the semantics of
pandas Series.mean: `none` entries are skipped, the empty valid set gives
NaN (`none`). -/
def seriesMean (xs : List (Option Rat)) : Option Rat :=
  let vs := xs.filterMap id
  if vs.isEmpty then none else some (vs.sum / vs.length)

/-- Embedding of the fastest-lap KPI (hello.py line 79): df.lap_sec.min(). -/
def fastest_lap (subset : List MRow) : Option Rat :=
  seriesMin (subset.filterMap fun r => r.lap_sec)

/-- Embedding of the pit-stop join (hello.py lines 83-86): pit_stops merged
on (raceId, driverId) with the deduplicated pairs of the subset.  The right
side is unique, so the merge keeps exactly the matching pit-stop rows in
their original order. -/
def pits (pit_stops : List PitStopRaw) (subset : List MRow) : List PitStopRaw :=
  pit_stops.filter fun p =>
    decide ((p.raceId, p.driverId) ∈
      dedupFirst (subset.map fun r => (r.raceId, r.driverId)))

/-- Embedding of the average pit-stop KPI (hello.py lines 87-88):
pits.milliseconds.mean() / 1000 if pits is non-empty, else Python None.
The outer `none` is Python None (rendered N/A); `some none` is the NaN a
mean over zero valid values produces. -/
def avg_pit (pit_stops : List PitStopRaw) (subset : List MRow) :
    Option (Option Rat) :=
  let ps := pits pit_stops subset
  if ps.isEmpty then none
  else some ((seriesMean (ps.map fun p => p.milliseconds.v)).map fun m => m / 1000)

/-- Embedding of the points KPI (hello.py line 96): the null-skipping sum of
points over the ResultsView rows of the selected year and driver. -/
def pts (results : List RRow) (year : Int) (driver : String) : Rat :=
  (((results.filter fun r => r.year == year && r.driverRef == driver).filterMap
    fun r => r.points).sum)

/-- Ordering used by sort_values("lap_sec"): ascending with NaN last. -/
def lapSecLe : Option Rat → Option Rat → Bool
  | some a, some b => decide (a ≤ b)
  | some _, none => true
  | none, some _ => false
  | none, none => true

/-- Embedding of df.groupby("circuitName").lap_sec.min().reset_index()
(hello.py lines 130-133): groupby(sort=True) enumerates the distinct keys
in ascending order and takes the null-skipping minimum of each group. -/
def grouped_min (subset : List MRow) : List (String × Option Rat) :=
  ((dedupFirst (subset.map fun r => r.circuitName)).mergeSort
      fun a b => decide (a ≤ b)).map
    fun k => (k, seriesMin ((subset.filter fun r => r.circuitName == k).filterMap
      fun r => r.lap_sec))

/-- Embedding of fastest_by_circ (hello.py lines 130-135): the grouped
minima sorted ascending by lap_sec.  The source's sort_values uses the
default kind="quicksort", whose order on ties pandas leaves unspecified;
the mergeSort here is a model choice and only its permutation and
sortedness are relied upon. -/
def fastest_by_circ (subset : List MRow) : List (String × Option Rat) :=
  (grouped_min subset).mergeSort fun a b => lapSecLe a.2 b.2

/-- Embedding of pts_df (hello.py lines 167-171): the matching ResultsView
rows restricted to (round, points), rows with missing points dropped, and
sorted ascending by round.  round is an integer column, so dropna removes
exactly the rows whose points is missing. -/
def pts_df (results : List RRow) (year : Int) (driver : String) :
    List (Int × Rat) :=
  (((results.filter fun r => r.year == year && r.driverRef == driver).filterMap
      fun r => r.points.map fun p => (r.round, p)).mergeSort
    fun a b => decide (a.1 ≤ b.1))

/-- Numeric coercion of a deduplicated raw (circuitName, lat, lng) triple;
the row is dropped when either coordinate fails to parse. -/
def coerceTriple (t : String × Cell × Cell) : Option (String × Rat × Rat) :=
  match t.2.1.v, t.2.2.v with
  | some a, some b => some (t.1, a, b)
  | _, _ => none

/-- Embedding of map_df (hello.py lines 184-187): drop_duplicates on the raw
(circuitName, lat, lng) triples first, then lat and lng are coerced and
rows with a missing coordinate dropped. -/
def map_df (subset : List MRow) : List (String × Rat × Rat) :=
  (dedupFirst (subset.map fun r => (r.circuitName, r.lat, r.lng))).filterMap
    coerceTriple

/-- Characters of Python str.title(): the first letter of each maximal run
of letters is uppercased, the rest lowercased; prev records whether the
previous character was a letter. -/
def titleChars (prev : Bool) : List Char → List Char
  | [] => []
  | c :: cs =>
    if c.isAlpha then
      (if prev then c.toLower else c.toUpper) :: titleChars true cs
    else c :: titleChars false cs

/-- Python str.title() on the ASCII driver references. -/
def pyTitle (s : String) : String := String.mk (titleChars false s.data)

/-- The warning text of the empty-selection guard (hello.py line 71). -/
def noDataMsg (year : Int) (driver : String) : String :=
  "⚠️ No data for " ++ pyTitle driver ++ " in " ++ toString year

/-- One output emitted during an interaction.  Widget text whose content is
a formatted metric is carried as the metric value itself (kpi events);
charts carry the table handed to the plotting call. -/
inductive Event where
  | sidebar : Event
  | txt : String → Event
  | sep : Event
  | warn : String → Event
  | kpiFastest : Option Rat → Event
  | kpiAvgPit : Option (Option Rat) → Event
  | kpiPoints : Rat → Event
  | chartLaps : List MRow → Event
  | chartHist : List MRow → Event
  | chartFastest : List (String × Option Rat) → Event
  | chartPitBox : List (Int × Option Rat) → Event
  | chartPoints : List (Int × Rat) → Event
  | chartMap : List (String × Rat × Rat) → Event
deriving DecidableEq

/-- Whether an event is a warning alert. -/
def Event.isWarn : Event → Bool
  | .warn _ => true
  | _ => false

/-- Whether an event is a chart hand-off to the plotting library. -/
def Event.isChart : Event → Bool
  | .chartLaps _ => true
  | .chartHist _ => true
  | .chartFastest _ => true
  | .chartPitBox _ => true
  | .chartPoints _ => true
  | .chartMap _ => true
  | _ => false

/-- Whether an event is a KPI metric card. -/
def Event.isKpi : Event → Bool
  | .kpiFastest _ => true
  | .kpiAvgPit _ => true
  | .kpiPoints _ => true
  | _ => false

/-- Embedding of one UI interaction (hello.py lines 57-200): the event
sequence produced for a selected (year, driver) pair.  The raise SystemExit
of the empty-selection guard is a controlled early return, so that branch
ends the event list after its warning; the astype(int) on the pit-stop stop
column (line 151) can genuinely raise, which the Except monad records. -/
def handleSelection (master : List MRow) (results : List RRow)
    (pit_stops : List PitStopRaw) (year : Int) (driver : String) :
    Except String (List Event) := do
  let header : List Event := [.sidebar, .txt "# 🏁 F1 Deep-Dive Dashboard"]
  let sub := df master year driver
  if sub.isEmpty then
    return header ++ [.warn (noDataMsg year driver)]
  else
    let ps := pits pit_stops sub
    let kpis : List Event :=
      [.sep, .kpiFastest (fastest_lap sub), .kpiAvgPit (avg_pit pit_stops sub),
       .kpiPoints (pts results year driver), .sep]
    let charts1 : List Event :=
      [.chartLaps sub, .chartHist sub, .chartFastest (fastest_by_circ sub)]
    let pitSec : List Event ←
      if ps.isEmpty then
        pure [.txt "## 🛠 Pit-Stops Analysis", .warn "⚠️ No pit-stop data"]
      else do
        let stops ← ps.mapM fun p =>
          match p.stop.v with
          | some q => Except.ok (truncToInt q, p.milliseconds.v.map fun m => m / 1000)
          | none => Except.error
              "IntCastingNaNError: cannot convert non-finite values (NA or inf) to integer"
        pure [.txt "## 🛠 Pit-Stops Analysis", .chartPitBox stops]
    let p_df := results.filter fun r => r.year == year && r.driverRef == driver
    let ptsSec : List Event :=
      if p_df.isEmpty then
        [.txt "## 🏆 Points Progression", .warn "⚠️ No points data"]
      else
        [.txt "## 🏆 Points Progression", .chartPoints (pts_df results year driver)]
    let m_df := map_df sub
    let mapSec : List Event :=
      if m_df.isEmpty then
        [.txt "## 🌍 Circuits Visited", .warn "⚠️ No location data"]
      else
        [.txt "## 🌍 Circuits Visited", .chartMap m_df]
    return header ++ kpis ++ charts1 ++ pitSec ++ ptsSec ++ mapSec

/-! Sample data used by the witnesses: a small MasterView, ResultsView and
pit-stop table in the shape of the 2021 scenario of the spec. -/

/-- Sample master row: Verstappen, Silverstone, lap 1, 92 s. -/
def mRow1 : MRow :=
  { raceId := 1, driverId := 10, driverRef := "max_verstappen", year := 2021,
    round := 1, circuitId := 100, circuitName := "Silverstone",
    lat := { text := "52", v := some 52 },
    lng := { text := "-1", v := some (-1) },
    lap := 1, milliseconds := some 92000, lap_sec := some 92 }

/-- Sample master row: Verstappen, Silverstone, lap 2, 91 s. -/
def mRow2 : MRow :=
  { mRow1 with
      lap := 2, milliseconds := some 91000, lap_sec := some 91 }

/-- Sample master row: Verstappen, Monza, lap 1, 93 s. -/
def mRow3 : MRow :=
  { mRow1 with
      raceId := 2, round := 2, circuitId := 101, circuitName := "Monza",
      lat := { text := "45", v := some 45 },
      lng := { text := "9", v := some 9 },
      milliseconds := some 93000, lap_sec := some 93 }

/-- Sample master row: Hamilton, Silverstone, lap 1, 95 s. -/
def mRow4 : MRow :=
  { mRow1 with
      driverId := 11, driverRef := "lewis_hamilton",
      milliseconds := some 95000, lap_sec := some 95 }

/-- Sample MasterView. -/
def sampleMaster : List MRow := [mRow1, mRow2, mRow3, mRow4]

/-- Sample ResultsView. -/
def sampleResults : List RRow :=
  [{ raceId := 2, driverId := 10, driverRef := "max_verstappen", year := 2021,
     round := 2, points := some 18 },
   { raceId := 1, driverId := 10, driverRef := "max_verstappen", year := 2021,
     round := 1, points := some 25 },
   { raceId := 1, driverId := 10, driverRef := "max_verstappen", year := 2021,
     round := 3, points := none },
   { raceId := 1, driverId := 11, driverRef := "lewis_hamilton", year := 2021,
     round := 1, points := some 19 }]

/-- Sample pit-stop table: two stops for Verstappen at race 1, one stop of
an unrelated driver. -/
def samplePits : List PitStopRaw :=
  [{ raceId := 1, driverId := 10, stop := { text := "1", v := some 1 },
     milliseconds := { text := "22500", v := some 22500 } },
   { raceId := 1, driverId := 10, stop := { text := "2", v := some 2 },
     milliseconds := { text := "23500", v := some 23500 } },
   { raceId := 9, driverId := 99, stop := { text := "1", v := some 1 },
     milliseconds := { text := "30000", v := some 30000 } }]

/-! Helper lemmas about the dedup, min, and mean building blocks. -/

theorem mem_dedupFirstAux [DecidableEq α] (l : List α) (seen : List α) (a : α) :
    a ∈ dedupFirstAux seen l ↔ a ∈ l ∧ a ∉ seen := by
  induction l generalizing seen with
  | nil => simp [dedupFirstAux]
  | cons b l ih =>
    by_cases hb : b ∈ seen
    · simp only [dedupFirstAux, hb, ite_true, ih, List.mem_cons]
      constructor
      · exact fun ⟨h1, h2⟩ => ⟨Or.inr h1, h2⟩
      · rintro ⟨rfl | h1, h2⟩
        · exact absurd hb h2
        · exact ⟨h1, h2⟩
    · simp only [dedupFirstAux, hb, ite_false, List.mem_cons, ih]
      constructor
      · rintro (rfl | ⟨h1, h2⟩)
        · exact ⟨Or.inl rfl, hb⟩
        · exact ⟨Or.inr h1, fun hs => h2 (Or.inr hs)⟩
      · rintro ⟨rfl | h1, h2⟩
        · exact Or.inl rfl
        · by_cases hab : a = b
          · exact Or.inl hab
          · exact Or.inr ⟨h1, fun hm => hm.elim hab h2⟩

theorem mem_dedupFirst [DecidableEq α] (l : List α) (a : α) :
    a ∈ dedupFirst l ↔ a ∈ l := by
  simp [dedupFirst, mem_dedupFirstAux]

theorem nodup_dedupFirstAux [DecidableEq α] (l : List α) (seen : List α) :
    (dedupFirstAux seen l).Nodup := by
  induction l generalizing seen with
  | nil => exact List.nodup_nil
  | cons b l ih =>
    by_cases hb : b ∈ seen
    · simpa [dedupFirstAux, hb] using ih seen
    · simp only [dedupFirstAux, hb, ite_false]
      refine List.nodup_cons.mpr ⟨?_, ih (b :: seen)⟩
      intro hmem
      exact ((mem_dedupFirstAux l (b :: seen) b).mp hmem).2 (List.mem_cons_self b seen)

theorem nodup_dedupFirst [DecidableEq α] (l : List α) : (dedupFirst l).Nodup :=
  nodup_dedupFirstAux l []

theorem seriesMin_eq_none_iff (xs : List Rat) : seriesMin xs = none ↔ xs = [] := by
  cases xs with
  | nil => simp [seriesMin]
  | cons x xs => cases h : seriesMin xs <;> simp [seriesMin, h]

theorem seriesMin_mem (xs : List Rat) (m : Rat) (h : seriesMin xs = some m) :
    m ∈ xs := by
  induction xs generalizing m with
  | nil => simp [seriesMin] at h
  | cons x xs ih =>
    cases hx : seriesMin xs with
    | none =>
      simp only [seriesMin, hx, Option.some.injEq] at h
      subst h
      exact List.mem_cons_self x xs
    | some m' =>
      simp only [seriesMin, hx, Option.some.injEq] at h
      subst h
      rcases le_total x m' with hle | hle
      · rw [min_eq_left hle]
        exact List.mem_cons_self x xs
      · rw [min_eq_right hle]
        exact List.mem_cons_of_mem x (ih m' hx)

theorem seriesMin_le (xs : List Rat) (m : Rat) (h : seriesMin xs = some m) :
    ∀ v ∈ xs, m ≤ v := by
  induction xs generalizing m with
  | nil => simp
  | cons x xs ih =>
    intro v hv
    cases hx : seriesMin xs with
    | none =>
      have hxs : xs = [] := (seriesMin_eq_none_iff xs).mp hx
      subst hxs
      simp only [seriesMin, Option.some.injEq] at h
      subst h
      rcases List.mem_singleton.mp hv with rfl
      exact le_rfl
    | some m' =>
      simp only [seriesMin, hx, Option.some.injEq] at h
      subst h
      rcases List.mem_cons.mp hv with rfl | hv'
      · exact min_le_left _ _
      · exact le_trans (min_le_right _ _) (ih m' hx v hv')

theorem sum_map_div (l : List Rat) (c : Rat) :
    (l.map fun x => x / c).sum = l.sum / c := by
  induction l with
  | nil => simp
  | cons x l ih => simp [ih, add_div]

/-! The claims. -/

/-- C1: the selection filter returns exactly the rows of the view whose
year and driverRef equal the selected pair, in input order (a sublist of
the view), with row count equal to a naive linear scan, and it returns the
empty subset, rather than failing, when no row matches. -/
theorem selection_filter_spec (master : List MRow) (year : Int) (driver : String) :
    (df master year driver).Sublist master ∧
    (∀ r ∈ df master year driver, r.year = year ∧ r.driverRef = driver) ∧
    (∀ r ∈ master, r.year = year → r.driverRef = driver →
      r ∈ df master year driver) ∧
    (df master year driver).length =
      master.countP (fun r => r.year == year && r.driverRef == driver) ∧
    ((∀ r ∈ master, ¬(r.year = year ∧ r.driverRef = driver)) →
      df master year driver = []) := by
  refine ⟨List.filter_sublist master, ?_, ?_, ?_, ?_⟩
  · intro r hr
    have h := (List.mem_filter.mp hr).2
    simp only [Bool.and_eq_true, beq_iff_eq] at h
    exact h
  · intro r hr h1 h2
    exact List.mem_filter.mpr ⟨hr, by simp [h1, h2]⟩
  · exact (List.countP_eq_length_filter _ _).symm
  · intro h
    apply List.filter_eq_nil_iff.mpr
    intro r hr
    simp only [Bool.and_eq_true, beq_iff_eq, not_and]
    intro h1 h2
    exact h r hr ⟨h1, h2⟩

/-- Witness for C1 at the sample view and the pair (2021, max_verstappen). -/
theorem selection_filter_spec_witness :
    (df sampleMaster 2021 "max_verstappen").Sublist sampleMaster ∧
    (∀ r ∈ df sampleMaster 2021 "max_verstappen",
      r.year = 2021 ∧ r.driverRef = "max_verstappen") ∧
    (∀ r ∈ sampleMaster, r.year = 2021 → r.driverRef = "max_verstappen" →
      r ∈ df sampleMaster 2021 "max_verstappen") ∧
    (df sampleMaster 2021 "max_verstappen").length =
      sampleMaster.countP
        (fun r => r.year == 2021 && r.driverRef == "max_verstappen") ∧
    ((∀ r ∈ sampleMaster, ¬(r.year = 2021 ∧ r.driverRef = "max_verstappen")) →
      df sampleMaster 2021 "max_verstappen" = []) :=
  selection_filter_spec sampleMaster 2021 "max_verstappen"

/-- C6: total points is the null-skipping sum of the points of the matching
ResultsView rows, row by row, and it is the number 0 (not a missing value:
the return type carries no missing state) when no row matches. -/
theorem total_points_spec (results : List RRow) (year : Int) (driver : String) :
    ((∀ r ∈ results, ¬(r.year = year ∧ r.driverRef = driver)) →
      pts results year driver = 0) ∧
    (∀ r rs, pts (r :: rs) year driver =
      (if r.year = year ∧ r.driverRef = driver then r.points.getD 0 else 0) +
        pts rs year driver) := by
  constructor
  · intro h
    unfold pts
    have hnil : results.filter
        (fun r => r.year == year && r.driverRef == driver) = [] := by
      apply List.filter_eq_nil_iff.mpr
      intro r hr
      simp only [Bool.and_eq_true, beq_iff_eq, not_and]
      intro h1 h2
      exact h r hr ⟨h1, h2⟩
    rw [hnil]
    rfl
  · intro r rs
    unfold pts
    by_cases h1 : r.year = year
    · by_cases h2 : r.driverRef = driver
      · cases hp : r.points with
        | none => simp [List.filter_cons, List.filterMap_cons, hp, h1, h2]
        | some p => simp [List.filter_cons, List.filterMap_cons, hp, h1, h2]
      · simp [List.filter_cons, h1, h2]
    · simp [List.filter_cons, h1]

/-- Witness for C6: an unmatched pair sums to 0 on the sample results. -/
theorem total_points_spec_witness : pts sampleResults 1999 "nobody" = 0 :=
  (total_points_spec sampleResults 1999 "nobody").1 (by decide)

/-- C7: fastest lap is the minimum of the valid lap_sec values of the
subset — it is a value attained in the subset and a lower bound of all its
lap_sec values — it is missing exactly when the subset has no valid
lap_sec, and on the empty subset it is missing rather than an error. -/
theorem fastest_lap_spec (subset : List MRow) :
    (fastest_lap subset = none ↔
      (subset.filterMap fun r => r.lap_sec) = []) ∧
    (∀ m, fastest_lap subset = some m →
      (∃ r ∈ subset, r.lap_sec = some m) ∧
      ∀ r ∈ subset, ∀ v, r.lap_sec = some v → m ≤ v) ∧
    fastest_lap ([] : List MRow) = none := by
  refine ⟨seriesMin_eq_none_iff _, ?_, rfl⟩
  intro m hm
  constructor
  · exact List.mem_filterMap.mp (seriesMin_mem _ _ hm)
  · intro r hr v hv
    exact seriesMin_le _ _ hm v (List.mem_filterMap.mpr ⟨r, hr, hv⟩)

/-- Witness for C7: on the sample subset the fastest lap is 91 s and
bounds every lap. -/
theorem fastest_lap_spec_witness :
    (∃ r ∈ df sampleMaster 2021 "max_verstappen", r.lap_sec = some 91) ∧
    ∀ r ∈ df sampleMaster 2021 "max_verstappen", ∀ v, r.lap_sec = some v →
      (91 : Rat) ≤ v :=
  (fastest_lap_spec (df sampleMaster 2021 "max_verstappen")).2.1 91
    (by decide)

/-- C10: whenever the year is one of the enumerated distinct years of the
view and the driver one of the distinct driverRef values of the rows of
that year, the filtered subset is non-empty, so the empty-selection warning
branch is unreachable from UI-enumerated combinations. -/
theorem enumerated_selection_nonempty (master : List MRow) (year : Int)
    (driver : String) (_hy : year ∈ years master)
    (hd : driver ∈ drivers master year) :
    df master year driver ≠ [] := by
  have hd1 : driver ∈ dedupFirst
      ((master.filter fun r => r.year == year).map fun r => r.driverRef) :=
    (List.mergeSort_perm _ _).mem_iff.mp hd
  have hd2 := (mem_dedupFirst _ _).mp hd1
  rcases List.mem_map.mp hd2 with ⟨r, hrf, href⟩
  have hrm := List.mem_filter.mp hrf
  have hrdf : r ∈ df master year driver := by
    refine List.mem_filter.mpr ⟨hrm.1, ?_⟩
    have hy' := hrm.2
    simp only [beq_iff_eq] at hy'
    simp [hy', href]
  exact List.ne_nil_of_mem hrdf

/-- Witness for C10 at the sample view. -/
theorem enumerated_selection_nonempty_witness :
    df sampleMaster 2021 "max_verstappen" ≠ [] :=
  enumerated_selection_nonempty sampleMaster 2021 "max_verstappen"
    ((List.mergeSort_perm _ _).mem_iff.mpr (by decide))
    ((List.mergeSort_perm _ _).mem_iff.mpr (by decide))

/-- C2: when the selected pair matches no rows, the interaction stops with
exactly one warning naming the driver and the season, emits no metric card
and no chart of the downstream sections, and ends without an unhandled
error (the result is an ok event list, not an error). -/
theorem empty_selection_spec (master : List MRow) (results : List RRow)
    (pit_stops : List PitStopRaw) (year : Int) (driver : String)
    (h : df master year driver = []) :
    handleSelection master results pit_stops year driver =
      Except.ok [Event.sidebar, Event.txt "# 🏁 F1 Deep-Dive Dashboard",
        Event.warn (noDataMsg year driver)] ∧
    ∀ evs, handleSelection master results pit_stops year driver =
        Except.ok evs →
      evs.countP Event.isWarn = 1 ∧ evs.countP Event.isChart = 0 ∧
      evs.countP Event.isKpi = 0 ∧ Event.warn (noDataMsg year driver) ∈ evs := by
  have hempty : (df master year driver).isEmpty = true := by
    rw [h]
    rfl
  have h1 : handleSelection master results pit_stops year driver =
      Except.ok [Event.sidebar, Event.txt "# 🏁 F1 Deep-Dive Dashboard",
        Event.warn (noDataMsg year driver)] := by
    unfold handleSelection
    simp only [hempty, ite_true, List.cons_append, List.nil_append]
    rfl
  refine ⟨h1, ?_⟩
  intro evs hevs
  rw [h1] at hevs
  cases hevs
  refine ⟨rfl, rfl, rfl, ?_⟩
  simp [List.mem_cons]

/-- Witness for C2: an unmatched pair on the sample data yields exactly the
header plus one warning. -/
theorem empty_selection_spec_witness :
    handleSelection sampleMaster sampleResults samplePits 1999
        "max_verstappen" =
      Except.ok [Event.sidebar, Event.txt "# 🏁 F1 Deep-Dive Dashboard",
        Event.warn (noDataMsg 1999 "max_verstappen")] :=
  (empty_selection_spec sampleMaster sampleResults samplePits 1999
    "max_verstappen" (by decide)).1

/-- The races table that crashes load_tables: a single row whose year cell
holds the unparsable text "abc". -/
def badRawTables : RawTables :=
  { races := [{ raceId := 1, year := { text := "abc", v := none },
                round := 1, circuitId := 1 }],
    lap_times := [], results := [], drivers := [], circuits := [],
    pit_stops := [] }

/-- C3 (code bug): the pipeline does not absorb a coercion failure on
Race.year. pd.to_numeric(errors="coerce") maps the unparsable text to NaN,
but the astype(int) that follows raises IntCastingNaNError on that NaN, so
an unparsable year crashes the load instead of becoming missing (the lap
cast in make_master has the same astype(int) shape). -/
theorem load_tables_raises_on_unparsable_year :
    load_tables badRawTables = Except.error
      "IntCastingNaNError: cannot convert non-finite values (NA or inf) to integer" :=
  rfl

/-- C4: the average pit stop is missing (Python None, rendered N/A) exactly
when the join of the pit stops with the distinct (raceId, driverId) pairs
of the subset is empty, and otherwise it is the arithmetic mean of
milliseconds / 1000 over the joined rows that carry a valid milliseconds
value. -/
theorem avg_pit_spec (pit_stops : List PitStopRaw) (subset : List MRow) :
    (avg_pit pit_stops subset = none ↔ pits pit_stops subset = []) ∧
    (∀ vs, vs = (pits pit_stops subset).map (fun p => p.milliseconds.v) →
      vs.filterMap id ≠ [] →
      avg_pit pit_stops subset =
        some (some (((vs.filterMap id).map fun m => m / 1000).sum /
          ((vs.filterMap id).length : Rat)))) := by
  constructor
  · unfold avg_pit
    by_cases hps : (pits pit_stops subset).isEmpty = true
    · simp [hps, List.isEmpty_iff.mp hps]
    · simp only [hps, ite_false]
      constructor
      · intro hcon
        exact absurd hcon (by simp)
      · intro hnil
        exact absurd (List.isEmpty_iff.mpr hnil) hps
  · intro vs hvs hne
    subst hvs
    have hpsne : pits pit_stops subset ≠ [] := by
      intro hnil
      rw [hnil] at hne
      exact hne rfl
    have hps : (pits pit_stops subset).isEmpty = false := by
      cases hempty : (pits pit_stops subset).isEmpty with
      | false => rfl
      | true => exact absurd (List.isEmpty_iff.mp hempty) hpsne
    unfold avg_pit seriesMean
    have hvne : (((pits pit_stops subset).map
        fun p => p.milliseconds.v).filterMap id).isEmpty = false := by
      cases hv : (((pits pit_stops subset).map
          fun p => p.milliseconds.v).filterMap id).isEmpty with
      | false => rfl
      | true => exact absurd (List.isEmpty_iff.mp hv) hne
    simp only [hps, hvne, Bool.false_eq_true, ite_false, Option.map_some',
      sum_map_div]
    rw [div_right_comm]

/-- Witness for C4: Verstappen's two sample stops of 22.5 s and 23.5 s
average to 23 s. -/
theorem avg_pit_spec_witness :
    avg_pit samplePits (df sampleMaster 2021 "max_verstappen") =
      some (some 23) := by
  rw [(avg_pit_spec samplePits (df sampleMaster 2021 "max_verstappen")).2
    ((pits samplePits (df sampleMaster 2021 "max_verstappen")).map
      fun p => p.milliseconds.v) rfl (by decide)]
  norm_num [pits, sampleMaster, samplePits, mRow1, mRow2, mRow3, mRow4, df,
    dedupFirst, dedupFirstAux, List.filterMap_cons]

/-- C8: points_by_round is sorted ascending by round, is a permutation of
the (round, points) pairs of exactly the matching rows whose points is
present (rows with missing points excluded), every returned pair comes
from such a row, and every such row contributes its pair. -/
theorem points_by_round_spec (results : List RRow) (year : Int) (driver : String) :
    (pts_df results year driver).Pairwise (fun a b => a.1 ≤ b.1) ∧
    (pts_df results year driver).Perm
      ((results.filter fun r => r.year == year && r.driverRef == driver).filterMap
        fun r => r.points.map fun p => (r.round, p)) ∧
    (∀ q ∈ pts_df results year driver, ∃ r ∈ results,
      r.year = year ∧ r.driverRef = driver ∧ r.round = q.1 ∧
        r.points = some q.2) ∧
    (∀ r ∈ results, r.year = year → r.driverRef = driver →
      ∀ p, r.points = some p → (r.round, p) ∈ pts_df results year driver) := by
  have htrans : ∀ a b c : Int × Rat, (decide (a.1 ≤ b.1)) = true →
      (decide (b.1 ≤ c.1)) = true → (decide (a.1 ≤ c.1)) = true := by
    intro a b c h1 h2
    simp only [decide_eq_true_eq] at h1 h2 ⊢
    exact le_trans h1 h2
  have htotal : ∀ a b : Int × Rat,
      ((decide (a.1 ≤ b.1)) || (decide (b.1 ≤ a.1))) = true := by
    intro a b
    simp only [Bool.or_eq_true, decide_eq_true_eq]
    exact le_total a.1 b.1
  have hperm : (pts_df results year driver).Perm
      ((results.filter fun r => r.year == year && r.driverRef == driver).filterMap
        fun r => r.points.map fun p => (r.round, p)) := List.mergeSort_perm _ _
  refine ⟨?_, hperm, ?_, ?_⟩
  · have hs := List.sorted_mergeSort htrans htotal
      ((results.filter fun r => r.year == year && r.driverRef == driver).filterMap
        fun r => r.points.map fun p => (r.round, p))
    exact hs.imp fun h => of_decide_eq_true h
  · intro q hq
    rcases List.mem_filterMap.mp (hperm.mem_iff.mp hq) with ⟨r, hrf, hmap⟩
    have hrm := List.mem_filter.mp hrf
    cases hp : r.points with
    | none => simp [hp] at hmap
    | some p =>
      rw [hp] at hmap
      simp only [Option.map_some', Option.some.injEq] at hmap
      subst hmap
      have hb := hrm.2
      simp only [Bool.and_eq_true, beq_iff_eq] at hb
      exact ⟨r, hrm.1, hb.1, hb.2, rfl, hp⟩
  · intro r hr h1 h2 p hp
    apply hperm.mem_iff.mpr
    apply List.mem_filterMap.mpr
    exact ⟨r, List.mem_filter.mpr ⟨hr, by simp [h1, h2]⟩, by simp [hp]⟩

/-- Witness for C8 at the sample ResultsView. -/
theorem points_by_round_spec_witness :
    (pts_df sampleResults 2021 "max_verstappen").Pairwise
      (fun a b => a.1 ≤ b.1) ∧
    (pts_df sampleResults 2021 "max_verstappen").Perm
      ((sampleResults.filter
        fun r => r.year == 2021 && r.driverRef == "max_verstappen").filterMap
        fun r => r.points.map fun p => (r.round, p)) ∧
    (∀ q ∈ pts_df sampleResults 2021 "max_verstappen", ∃ r ∈ sampleResults,
      r.year = 2021 ∧ r.driverRef = "max_verstappen" ∧ r.round = q.1 ∧
        r.points = some q.2) ∧
    (∀ r ∈ sampleResults, r.year = 2021 → r.driverRef = "max_verstappen" →
      ∀ p, r.points = some p →
        (r.round, p) ∈ pts_df sampleResults 2021 "max_verstappen") :=
  points_by_round_spec sampleResults 2021 "max_verstappen"

/-- First row of the C9 counterexample: lat cell text "12.0". -/
def cexRow1 : MRow :=
  { raceId := 1, driverId := 10, driverRef := "max_verstappen", year := 2021,
    round := 1, circuitId := 100, circuitName := "Circuit X",
    lat := { text := "12.0", v := some 12 },
    lng := { text := "5", v := some 5 },
    lap := 1, milliseconds := some 90000, lap_sec := some 90 }

/-- Second row of the C9 counterexample: a different circuit id whose lat
cell text "12.00" differs from "12.0" but parses to the same number. -/
def cexRow2 : MRow :=
  { cexRow1 with
      circuitId := 101, lat := { text := "12.00", v := some 12 } }

/-- C9 counterexample: drop_duplicates runs on the raw cells before the
numeric coercion, so the two rows survive deduplication and the output
contains two equal (circuitName, lat, lng) triples — the claimed
no-two-equal-triples property fails. -/
theorem distinct_circuits_counterexample :
    map_df [cexRow1, cexRow2] =
      [("Circuit X", 12, 5), ("Circuit X", 12, 5)] ∧
    ¬ (map_df [cexRow1, cexRow2]).Nodup := by
  constructor
  · rfl
  · decide

theorem length_filterMap_coerceTriple (l : List (String × Cell × Cell)) :
    (l.filterMap coerceTriple).length =
      (l.filter fun t => t.2.1.v.isSome && t.2.2.v.isSome).length := by
  induction l with
  | nil => rfl
  | cons t l ih =>
    rcases t with ⟨n, c1, c2⟩
    cases h1 : c1.v <;> cases h2 : c2.v <;>
      simp [List.filterMap_cons, List.filter_cons, coerceTriple, h1, h2, ih]

/-- C9 (amended): distinct_circuits deduplicates the raw
(circuitName, lat, lng) triples of the subset, keeping first occurrences
(the deduplicated raw triples are pairwise distinct), then excludes every
triple whose lat or lng fails numeric coercion; each returned triple has
numeric coordinates coming from a subset row, every row with two valid
coordinates contributes its triple, and the output length counts the
coercible deduplicated raw triples — but two returned entries may still be
equal when distinct raw cells parse to the same number. -/
theorem distinct_circuits_spec (subset : List MRow) :
    (∀ p ∈ map_df subset, ∃ r ∈ subset,
      r.circuitName = p.1 ∧ r.lat.v = some p.2.1 ∧ r.lng.v = some p.2.2) ∧
    (∀ r ∈ subset, ∀ a b, r.lat.v = some a → r.lng.v = some b →
      (r.circuitName, a, b) ∈ map_df subset) ∧
    (dedupFirst (subset.map fun r => (r.circuitName, r.lat, r.lng))).Nodup ∧
    (map_df subset).length =
      ((dedupFirst (subset.map fun r => (r.circuitName, r.lat, r.lng))).filter
        fun t => t.2.1.v.isSome && t.2.2.v.isSome).length := by
  refine ⟨?_, ?_, nodup_dedupFirst _, length_filterMap_coerceTriple _⟩
  · intro p hp
    rcases List.mem_filterMap.mp hp with ⟨t, ht, hct⟩
    rcases List.mem_map.mp ((mem_dedupFirst _ _).mp ht) with ⟨r, hr, hrt⟩
    refine ⟨r, hr, ?_⟩
    subst hrt
    cases hla : r.lat.v with
    | none => simp [coerceTriple, hla] at hct
    | some a =>
      cases hlb : r.lng.v with
      | none => simp [coerceTriple, hla, hlb] at hct
      | some b =>
        simp only [coerceTriple, hla, hlb, Option.some.injEq] at hct
        subst hct
        exact ⟨rfl, by simp [hla], by simp [hlb]⟩
  · intro r hr a b hla hlb
    apply List.mem_filterMap.mpr
    refine ⟨(r.circuitName, r.lat, r.lng),
      (mem_dedupFirst _ _).mpr (List.mem_map.mpr ⟨r, hr, rfl⟩), ?_⟩
    simp [coerceTriple, hla, hlb]

/-- Witness for C9 (amended) at the sample subset. -/
theorem distinct_circuits_spec_witness :
    (∀ p ∈ map_df sampleMaster, ∃ r ∈ sampleMaster,
      r.circuitName = p.1 ∧ r.lat.v = some p.2.1 ∧ r.lng.v = some p.2.2) ∧
    (∀ r ∈ sampleMaster, ∀ a b, r.lat.v = some a → r.lng.v = some b →
      (r.circuitName, a, b) ∈ map_df sampleMaster) ∧
    (dedupFirst (sampleMaster.map
      fun r => (r.circuitName, r.lat, r.lng))).Nodup ∧
    (map_df sampleMaster).length =
      ((dedupFirst (sampleMaster.map
        fun r => (r.circuitName, r.lat, r.lng))).filter
        fun t => t.2.1.v.isSome && t.2.2.v.isSome).length :=
  distinct_circuits_spec sampleMaster

end F1
